import Mathlib

/-!
Shallow embedding of the `async-proxy` crate's handshake core
(src/src/general.rs, src/src/clients/socks4/{general,no_ident}.rs,
src/src/clients/socks5.rs, src/src/clients/socks5/no_auth.rs).

Bytes are modelled as `Nat` (values produced by the code are kept below 256
by the same casts the source performs), byte buffers as `List Nat`, and one
write-then-read round trip against the transport as one `IOEvent` chosen by
the environment.  A `connect` run consumes one event per `send_payload`
call (or per inlined write/read pair) and produces an outcome, the trace of
buffers successfully written to the transport, and the final state of the
constructor object (`&mut self` is translated as explicit state passing).
A Rust panic (`unwrap` on an `Err`, out-of-bounds slice indexing, or a
`clone_from_slice` length mismatch) is modelled as the distinguished
outcome `panicked`, separate from every typed error.
-/

set_option maxRecDepth 4000

namespace AsyncProxy

/-- Connect/write/read timeouts in milliseconds (struct `ConnectionTimeouts`
in src/src/general.rs). The durations only parameterize `tokio::time::timeout`;
whether a step times out is an environment choice, so the values are carried
as plain data. -/
structure ConnectionTimeouts where
  connecting_timeout : Nat
  write_timeout : Nat
  read_timeout : Nat
deriving DecidableEq

/-- Environment behaviour of one write-then-read round trip:
the write can exceed its timeout or fail with a native I/O error,
the read can do the same, or the read delivers `bytes` (of which the code's
`stream.read(&mut buf)` consumes at most `buf.len()`). -/
inductive IOEvent where
  | writeTimeout : IOEvent
  | writeIOError (e : Nat) : IOEvent
  | readTimeout : IOEvent
  | readIOError (e : Nat) : IOEvent
  | reply (bytes : List Nat) : IOEvent
deriving DecidableEq

/-- Whether the write half of the round trip completed (the read-side events
and a delivered reply all imply the preceding `write_all` succeeded). -/
def IOEvent.writeHappened : IOEvent → Bool
  | .writeTimeout => false
  | .writeIOError _ => false
  | _ => true

/-- Outcome of a `connect` call: success (the transport is wrapped into the
protocol's stream type and returned), a typed error of the protocol's
`ErrorKind`, or a Rust panic. -/
inductive COutcome (ε : Type) where
  | ok : COutcome ε
  | err (e : ε) : COutcome ε
  | panicked : COutcome ε
deriving DecidableEq

/-- Result of running `connect`: the outcome, the trace of buffers written
to the transport (in order), and the final state of the `&mut self`
constructor object. -/
structure RunResult (σ ε : Type) where
  outcome : COutcome ε
  writes : List (List Nat)
  final : σ
deriving DecidableEq

/-- Overwrite `buf[i .. i + src.length]` with `src`
(the image of `BigEndian::write_*` and of an in-bounds, equal-length
`clone_from_slice` on a subslice). -/
def writeAt (buf : List Nat) (i : Nat) (src : List Nat) : List Nat :=
  buf.take i ++ src ++ buf.drop (i + src.length)

/-- `Vec::resize(n, 0)`: truncate to `n` elements or pad with zeros. -/
def resizeList (buf : List Nat) (n : Nat) : List Nat :=
  if n ≤ buf.length then buf.take n else buf ++ List.replicate (n - buf.length) 0

/-- Big-endian bytes of a `u16` written by `BigEndian::write_u16`. -/
def u16be (v : Nat) : List Nat := [v / 256 % 256, v % 256]

/-- Big-endian bytes of a `u32` written by `BigEndian::write_u32`. -/
def u32be (v : Nat) : List Nat :=
  [v / 16777216 % 256, v / 65536 % 256, v / 256 % 256, v % 256]

/-- Big-endian bytes of a `u128` written by `BigEndian::write_u128`. -/
def u128be (v : Nat) : List Nat :=
  (List.range 16).map (fun i => v / 256 ^ (15 - i) % 256)

/-- The `u32` value of an `Ipv4Addr` with octets `o0.o1.o2.o3`
(the `Into<u32>` conversion used before `BigEndian::write_u32`). -/
def ipv4val (o0 o1 o2 o3 : Nat) : Nat :=
  ((o0 * 256 + o1) * 256 + o2) * 256 + o3

namespace Socks4

/-- Error taxonomy of the version-4 clients (enum `ErrorKind` in
src/src/clients/socks4.rs); `IOError` carries the native error, modelled
as an opaque numeric token. -/
inductive ErrorKind where
  | IOError (e : Nat) : ErrorKind
  | BadBuffer : ErrorKind
  | RequestDenied : ErrorKind
  | IdentIsUnavailable : ErrorKind
  | BadIdent : ErrorKind
  | OperationTimeoutReached : ErrorKind
deriving DecidableEq

/-- Destination IPv4 address and port (std `SocketAddrV4`), kept as the four
`u8` octets plus the `u16` port. -/
structure SocketAddrV4 where
  ip0 : Nat
  ip1 : Nat
  ip2 : Nat
  ip3 : Nat
  port : Nat
deriving DecidableEq

/-- Constructor state of the with-ident version-4 client
(struct `Socks4General` in src/src/clients/socks4/general.rs). -/
structure Socks4General where
  dest_addr : SocketAddrV4
  ident : List Nat
  timeouts : ConnectionTimeouts
deriving DecidableEq

/-- Constructor state of the no-ident version-4 client
(struct `Socks4NoIdent` in src/src/clients/socks4/no_ident.rs). -/
structure Socks4NoIdent where
  dest_addr : SocketAddrV4
  timeouts : ConnectionTimeouts
deriving DecidableEq

/-- The request buffer both version-4 `connect` implementations build:
push `4`, push the TCP-establishment command `1`, push two placeholder
zeros overwritten by `write_u16(port)`, push four placeholder zeros
overwritten by `write_u32(ip)`, push the terminator `0`.  Neither
implementation ever appends the ident bytes (general.rs only accounts for
them in the capacity `buf_len`). -/
def requestBytes (dest : SocketAddrV4) : List Nat :=
  [4, 1] ++ u16be dest.port ++ u32be (ipv4val dest.ip0 dest.ip1 dest.ip2 dest.ip3) ++ [0]

/-- The shared reply decoding: `match buf[1]` over the four recognized
status codes with the default arm mapping to `BadBuffer`. -/
def replyStatus (b : Nat) : COutcome ErrorKind :=
  if b = 0x5a then .ok
  else if b = 0x5b then .err .RequestDenied
  else if b = 0x5c then .err .IdentIsUnavailable
  else if b = 0x5d then .err .BadIdent
  else .err .BadBuffer

/-- `Socks4General::send_payload`: a timeout-bounded `write_all` of the full
buffer followed by a timeout-bounded `read` into the same buffer, returning
the number of bytes read; timeouts map to `OperationTimeoutReached` and
native failures to `IOError`. -/
def sendPayload (buf : List Nat) (ev : IOEvent) : Except ErrorKind (Nat × List Nat) :=
  match ev with
  | .writeTimeout => .error .OperationTimeoutReached
  | .writeIOError e => .error (.IOError e)
  | .readTimeout => .error .OperationTimeoutReached
  | .readIOError e => .error (.IOError e)
  | .reply bytes =>
      let r := bytes.take buf.length
      .ok (r.length, r ++ buf.drop r.length)

/-- `Socks4General::connect`: build the request, `send_payload` it — with the
result immediately `.unwrap()`ed, so any typed error from the round trip
panics — then require exactly 8 reply bytes and decode `buf[1]`. -/
def Socks4General.connect (self : Socks4General) (events : List IOEvent) :
    RunResult Socks4General ErrorKind :=
  let buf := requestBytes self.dest_addr
  let ev := events.headD (.reply [])
  let writes := if ev.writeHappened then [buf] else []
  match sendPayload buf ev with
  | .error _ => ⟨.panicked, writes, self⟩
  | .ok (read_bytes, buf1) =>
      if read_bytes ≠ 8 then ⟨.err .BadBuffer, writes, self⟩
      else ⟨replyStatus (buf1.getD 1 0), writes, self⟩

/-- `Socks4NoIdent::connect`: identical request bytes, but the write and the
read are inlined with `?`-propagation, so timeouts and native I/O failures
are returned as typed errors instead of panicking. -/
def Socks4NoIdent.connect (self : Socks4NoIdent) (events : List IOEvent) :
    RunResult Socks4NoIdent ErrorKind :=
  let buf := requestBytes self.dest_addr
  match events.headD (.reply []) with
  | .writeTimeout => ⟨.err .OperationTimeoutReached, [], self⟩
  | .writeIOError e => ⟨.err (.IOError e), [], self⟩
  | .readTimeout => ⟨.err .OperationTimeoutReached, [buf], self⟩
  | .readIOError e => ⟨.err (.IOError e), [buf], self⟩
  | .reply bytes =>
      let r := bytes.take buf.length
      let buf1 := r ++ buf.drop r.length
      if r.length ≠ 8 then ⟨.err .BadBuffer, [buf], self⟩
      else ⟨replyStatus (buf1.getD 1 0), [buf], self⟩

end Socks4

namespace Socks5

/-- The version-5 destination descriptor (enum `Destination` in
src/src/clients/socks5.rs): an IPv4 address kept as its four `u8` octets,
a domain name kept as its byte string, or an IPv6 address kept as its
`u128` value. -/
inductive Destination where
  | Ipv4Addr (o0 o1 o2 o3 : Nat) : Destination
  | DomainName (name : List Nat) : Destination
  | Ipv6Addr (v : Nat) : Destination
deriving DecidableEq

/-- `Destination::len_as_buffer`. -/
def Destination.len_as_buffer : Destination → Nat
  | .Ipv4Addr _ _ _ _ => 4 + 1
  | .DomainName name => name.length + 2
  | .Ipv6Addr _ => 16 + 1

/-- Result of `Destination::extend_buffer` on a mutable slice: the mutated
slice on `Ok(())`, the source's `Err(())` (the domain name is longer than
255 bytes), or a panic (an out-of-range slice index or a
`clone_from_slice` length mismatch). -/
inductive ExtendResult where
  | ok (buf : List Nat) : ExtendResult
  | err : ExtendResult
  | panicked : ExtendResult
deriving DecidableEq

/-- `Destination::extend_buffer(&mut self, buf: &mut [u8]) -> Result<(),()>`,
translated with the `&mut self` receiver threaded through as a returned
value.  IPv4: `buf[0] = 1` then `write_u32` into `buf[1..5]`.  Domain:
`buf[0] = 3`, return `Err(())` when the name exceeds 255 bytes, else
`buf[1] = len as u8` and `buf[2..].clone_from_slice(name)` — which panics
unless `buf.len() - 2` equals the name length.  IPv6: `buf[0] = 4` then
`write_u128` into `buf[1..17]`. -/
def Destination.extend_buffer : Destination → List Nat → ExtendResult × Destination
  | d@(.Ipv4Addr o0 o1 o2 o3), buf =>
      if buf.length < 5 then (.panicked, d)
      else (.ok (writeAt (buf.set 0 1) 1 (u32be (ipv4val o0 o1 o2 o3))), d)
  | d@(.DomainName name), buf =>
      if buf.length < 2 then (.panicked, d)
      else if name.length > 255 then (.err, d)
      else if buf.length - 2 ≠ name.length then (.panicked, d)
      else (.ok (writeAt ((buf.set 0 3).set 1 (name.length % 256)) 2 name), d)
  | d@(.Ipv6Addr v), buf =>
      if buf.length < 17 then (.panicked, d)
      else (.ok (writeAt (buf.set 0 4) 1 (u128be v)), d)

/-- The methods an attempt can be configured with (enum
`AuthenticationKind` in src/src/clients/socks5/no_auth.rs); credentials are
kept as byte strings. -/
inductive AuthenticationKind where
  | NoAuthentication : AuthenticationKind
  | GenericSecurityServicesAPI : AuthenticationKind
  | UsernamePassword (username password : List Nat) : AuthenticationKind
  | PrivateMethods : AuthenticationKind
  | NoAcceptable : AuthenticationKind
deriving DecidableEq

/-- Enum `NotSupportedMethod` in src/src/clients/socks5/no_auth.rs. -/
inductive NotSupportedMethod where
  | NoAuthRequired : NotSupportedMethod
  | GssAPI : NotSupportedMethod
  | IANA : NotSupportedMethod
  | PrivateMethods : NotSupportedMethod
deriving DecidableEq

/-- Error taxonomy of the version-5 client (enum `ErrorKind` in
src/src/clients/socks5/no_auth.rs). -/
inductive ErrorKind where
  | OperationTimeoutReached : ErrorKind
  | IOError (e : Nat) : ErrorKind
  | BadBuffer : ErrorKind
  | DomainNameTooLong : ErrorKind
  | SocksServerFailure : ErrorKind
  | RequestDenied : ErrorKind
  | NetworkUnreachable : ErrorKind
  | HostUnreachable : ErrorKind
  | ConnectionRefused : ErrorKind
  | TTLExpired : ErrorKind
  | NotSupported : ErrorKind
  | DestinationNotSupported : ErrorKind
  | Method (m : NotSupportedMethod) : ErrorKind
deriving DecidableEq

/-- Constructor state of the version-5 client (struct `TcpNoAuth` in
src/src/clients/socks5/no_auth.rs). -/
structure TcpNoAuth where
  destination : Destination
  port : Nat
  timeouts : ConnectionTimeouts
  auth : AuthenticationKind
deriving DecidableEq

/-- `TcpNoAuth::new`: defaults the authentication to `NoAuthentication`. -/
def TcpNoAuth.new (destination : Destination) (port : Nat)
    (timeouts : ConnectionTimeouts) : TcpNoAuth :=
  ⟨destination, port, timeouts, .NoAuthentication⟩

/-- `TcpNoAuth::with_authentication`. -/
def TcpNoAuth.with_authentication (self : TcpNoAuth)
    (username password : List Nat) : TcpNoAuth :=
  { self with auth := .UsernamePassword username password }

/-- `TcpNoAuth::send_payload`: same write-then-read helper as the
version-4 implementation, with this protocol's error type. -/
def sendPayload (buf : List Nat) (ev : IOEvent) : Except ErrorKind (Nat × List Nat) :=
  match ev with
  | .writeTimeout => .error .OperationTimeoutReached
  | .writeIOError e => .error (.IOError e)
  | .readTimeout => .error .OperationTimeoutReached
  | .readIOError e => .error (.IOError e)
  | .reply bytes =>
      let r := bytes.take buf.length
      .ok (r.length, r ++ buf.drop r.length)

/-- The reply-byte decoding `match buf[1]` that the source writes twice,
textually identically: once for the sub-negotiation reply and once for the
Phase-3 connection-request reply. -/
def replyStatus (b : Nat) : COutcome ErrorKind :=
  if b = 0 then .ok
  else if b = 1 then .err .SocksServerFailure
  else if b = 2 then .err .RequestDenied
  else if b = 3 then .err .NetworkUnreachable
  else if b = 4 then .err .HostUnreachable
  else if b = 5 then .err .ConnectionRefused
  else if b = 6 then .err .TTLExpired
  else if b = 7 then .err .NotSupported
  else if b = 8 then .err .DestinationNotSupported
  else .err .BadBuffer

/-- The Phase-3 connection request and its reply handling (the code that
follows the method-negotiation `match` in `TcpNoAuth::connect`); `buf2` is
the 3-byte buffer as mutated so far.  The buffer is resized to
`3 + len_as_buffer + 2`, `buf[0] = 5`, `buf[1] = 1` (the assignment
`buf[2] = 0` is commented out in the source), `extend_buffer` runs on the
subslice `buf[3..]` with its result `.unwrap()`ed, the port is written
big-endian in the last two bytes, and the reply must have exactly 2 bytes
before `buf[1]` is decoded. -/
def connectRequestPhase (self : TcpNoAuth) (buf2 : List Nat)
    (w1 : List (List Nat)) (ev : IOEvent) : RunResult TcpNoAuth ErrorKind :=
  let dest_buf_len := self.destination.len_as_buffer
  let buf_len := 1 + 1 + 1 + dest_buf_len + 2
  let bufA := resizeList buf2 buf_len
  let bufB := (bufA.set 0 5).set 1 1
  let er := self.destination.extend_buffer (bufB.drop 3)
  let self1 := { self with destination := er.2 }
  match er.1 with
  | .ok slice1 =>
      let bufC := bufB.take 3 ++ slice1
      let bufD := writeAt bufC (3 + dest_buf_len) (u16be self.port)
      let w3 := w1 ++ (if ev.writeHappened then [bufD] else [])
      match sendPayload bufD ev with
      | .error _ => ⟨.panicked, w3, self1⟩
      | .ok (rb3, bufE) =>
          if rb3 ≠ 2 then ⟨.err .BadBuffer, w3, self1⟩
          else ⟨replyStatus (bufE.getD 1 0), w3, self1⟩
  | .err => ⟨.panicked, w1, self1⟩
  | .panicked => ⟨.panicked, w1, self1⟩

/-- The username/password sub-negotiation (the body of the `if let
AuthenticationKind::UsernamePassword` inside the `0x02` arm): the buffer —
whose byte 0 was already set to 1 — is resized to
`1 + 1 + ulen + 1 + plen`, filled with `ULEN · UNAME · PLEN · PASSWD`,
sent (`.unwrap()`ed), and on a 2-byte reply the source decodes `buf[1]`
with the same table as the Phase-3 reply, returning the wrapped stream
directly on 0. -/
def authPhase (self : TcpNoAuth) (username password buf2 : List Nat)
    (w1 : List (List Nat)) (ev : IOEvent) : RunResult TcpNoAuth ErrorKind :=
  let buf_size := 1 + 1 + username.length + 1 + password.length
  let buf3 := resizeList buf2 buf_size
  let buf4 := buf3.set 1 (username.length % 256)
  let buf5 := writeAt buf4 2 username
  let buf6 := buf5.set (2 + username.length) (password.length % 256)
  let buf7 := writeAt buf6 (2 + username.length + 1) password
  let w2 := w1 ++ (if ev.writeHappened then [buf7] else [])
  match sendPayload buf7 ev with
  | .error _ => ⟨.panicked, w2, self⟩
  | .ok (rb2, buf8) =>
      if rb2 ≠ 2 then ⟨.err .BadBuffer, w2, self⟩
      else ⟨replyStatus (buf8.getD 1 0), w2, self⟩

/-- `TcpNoAuth::connect`.  Phase 1 pushes `[5, 1]` and then the method byte
`0` (no-auth) or `2` (username/password); any other configured selection
only prints a diagnostic and pushes nothing.  The greeting is sent via
`send_payload` whose result is `.unwrap()`ed.  Exactly 2 reply bytes are
required, byte 0 must be 5 and byte 1 must not be 0xFF, and the method
byte is dispatched: 0 and 1 are terminal `Method` errors, 3–0x7F is IANA,
0x80–0xFE is private, 0xFF is `BadBuffer`; under 2, `buf[0]` is set to 1
and the username/password sub-negotiation runs if those credentials are
configured — every other configuration falls through to the Phase-3
connection request. -/
def TcpNoAuth.connect (self : TcpNoAuth) (events : List IOEvent) :
    RunResult TcpNoAuth ErrorKind :=
  let method : List Nat :=
    match self.auth with
    | .NoAuthentication => [0]
    | .UsernamePassword _ _ => [2]
    | _ => []
  let buf := [5, 1] ++ method
  let ev1 := events.headD (.reply [])
  let w1 := if ev1.writeHappened then [buf] else []
  match sendPayload buf ev1 with
  | .error _ => ⟨.panicked, w1, self⟩
  | .ok (read_bytes, buf1) =>
      if read_bytes ≠ 2 then ⟨.err .BadBuffer, w1, self⟩
      else if buf1.getD 0 0 ≠ 5 ∨ buf1.getD 1 0 = 0xFF then ⟨.err .BadBuffer, w1, self⟩
      else
        let b1 := buf1.getD 1 0
        if b1 = 0 then ⟨.err (.Method .NoAuthRequired), w1, self⟩
        else if b1 = 1 then ⟨.err (.Method .GssAPI), w1, self⟩
        else if b1 = 2 then
          let buf2 := buf1.set 0 1
          let ev2 := (events.drop 1).headD (.reply [])
          match self.auth with
          | .UsernamePassword username password =>
              authPhase self username password buf2 w1 ev2
          | _ => connectRequestPhase self buf2 w1 ev2
        else if 3 ≤ b1 ∧ b1 ≤ 0x7F then ⟨.err (.Method .IANA), w1, self⟩
        else if 0x80 ≤ b1 ∧ b1 ≤ 0xFE then ⟨.err (.Method .PrivateMethods), w1, self⟩
        else ⟨.err .BadBuffer, w1, self⟩

end Socks5

/-- Sample timeouts (8 seconds each, as in the crate's examples), used by
the concrete evaluations below. -/
def sampleTimeouts : ConnectionTimeouts := ⟨8000, 8000, 8000⟩

/-- Sample version-4 destination 1.2.3.4:80. -/
def sampleDest : Socks4.SocketAddrV4 := ⟨1, 2, 3, 4, 80⟩

/-- A version-5 constructor with destination 1.2.3.4:80 and the default
no-authentication selection. -/
def sampleTcpNoAuth : Socks5.TcpNoAuth :=
  Socks5.TcpNoAuth.new (.Ipv4Addr 1 2 3 4) 80 sampleTimeouts

/-- A version-5 constructor configured with username/password credentials
(username `u`, password `p`). -/
def sampleUserPass : Socks5.TcpNoAuth :=
  (Socks5.TcpNoAuth.new (.Ipv4Addr 1 2 3 4) 80 sampleTimeouts).with_authentication
    [117] [112]

/-- A domain name of 256 bytes, one byte over the representable maximum. -/
def longName : List Nat := List.replicate 256 97

/- ### Helper lemmas -/

theorem resizeList_length (buf : List Nat) (n : Nat) : (resizeList buf n).length = n := by
  unfold resizeList
  split
  · simp only [List.length_take]
    omega
  · simp only [List.length_append, List.length_replicate]
    omega

theorem extend_buffer_snd (d : Socks5.Destination) (buf : List Nat) :
    (d.extend_buffer buf).2 = d := by
  cases d <;> simp only [Socks5.Destination.extend_buffer] <;>
    repeat' first | split | rfl

/-- On a slice two bytes longer than its name plus tag and length byte —
which is what `TcpNoAuth::connect` always hands it — `extend_buffer` for a
domain name either returns `Err(())` (name over 255 bytes) or panics in
`clone_from_slice` (the slice's remainder is two bytes longer than the
name). -/
theorem extend_domain_fst (name buf : List Nat) (h : buf.length = name.length + 4) :
    ((Socks5.Destination.DomainName name).extend_buffer buf).1
      = if 255 < name.length then Socks5.ExtendResult.err else .panicked := by
  simp only [Socks5.Destination.extend_buffer]
  rw [if_neg (by omega)]
  by_cases h255 : 255 < name.length
  · rw [if_pos (by omega), if_pos h255]
  · rw [if_neg (by omega), if_neg h255, if_pos (by omega)]

theorem requestBytes_length (d : Socks4.SocketAddrV4) :
    (Socks4.requestBytes d).length = 9 := by
  simp [Socks4.requestBytes, u16be, u32be]

/- ### Claim theorems -/

/-- C1: evaluation of the code at the claim's scenario.  With the default
no-authentication selection offered and the method-negotiation reply
`[5, 0x00]` (the server choosing the no-auth method the client offered),
`connect` terminates at method selection with the error
`Method(NoAuthRequired)` — it does not proceed to Phase 3, and no further
request bytes are written after the greeting.  This refutes the claimed
behaviour and exhibits the code bug. -/
theorem c1_noauth_grant_is_rejected :
    (sampleTcpNoAuth.connect [.reply [5, 0]]).outcome
      = .err (.Method .NoAuthRequired)
    ∧ (sampleTcpNoAuth.connect [.reply [5, 0]]).writes = [[5, 1, 0]] := by
  decide

/-- C2: evaluation of the code at the claim's scenario.  With
username/password selected, the method reply `[5, 2]` and the
sub-negotiation reply `[1, 0]` (authenticated), `connect` returns the
wrapped stream directly: the write trace contains only the greeting
`[5,1,2]` and the credential message — no Phase-3 connection request is
ever written, refuting the claim that success is reached only after the
connection request, and exhibiting the code bug. -/
theorem c2_auth_success_skips_connect_request :
    (sampleUserPass.connect [.reply [5, 2], .reply [1, 0]]).outcome = .ok
    ∧ (sampleUserPass.connect [.reply [5, 2], .reply [1, 0]]).writes
        = [[5, 1, 2], [1, 1, 117, 1, 112]] := by
  decide

/-- C4: evaluation of the code at the claim's scenario.  For a 256-byte
domain name, when the handshake reaches the Phase-3 encoding (method
reply `[5,2]`, the only route there), `connect` panics — the `Err(())`
from `extend_buffer` is `.unwrap()`ed — instead of returning the typed
error `DomainNameTooLong`; no Phase-3 bytes are written (only the
greeting), but no typed error of any kind is surfaced either. -/
theorem c4_overlong_domain_panics :
    ((Socks5.TcpNoAuth.new (.DomainName longName) 80 sampleTimeouts).connect
        [.reply [5, 2]]).outcome = .panicked
    ∧ ((Socks5.TcpNoAuth.new (.DomainName longName) 80 sampleTimeouts).connect
        [.reply [5, 2]]).writes = [[5, 1, 0]]
    ∧ ∀ e : Socks5.ErrorKind,
        ((Socks5.TcpNoAuth.new (.DomainName longName) 80 sampleTimeouts).connect
          [.reply [5, 2]]).outcome ≠ .err e := by
  refine ⟨by decide, by decide, ?_⟩
  intro e
  have hp : ((Socks5.TcpNoAuth.new (.DomainName longName) 80 sampleTimeouts).connect
      [.reply [5, 2]]).outcome = .panicked := by decide
  rw [hp]
  simp

/-- C6: evaluation of the code at the claim's scenarios.  A write timeout
makes `Socks4General::connect` and `TcpNoAuth::connect` panic (their
`send_payload` result is `.unwrap()`ed) instead of returning
`OperationTimeoutReached`; only `Socks4NoIdent::connect`, whose I/O is
inlined with `?`-propagation, returns the typed timeout and I/O errors
the claim describes. -/
theorem c6_timeout_errors_panic_except_no_ident :
    ((Socks4.Socks4General.mk sampleDest [] sampleTimeouts).connect [.writeTimeout]).outcome
      = .panicked
    ∧ (sampleTcpNoAuth.connect [.writeTimeout]).outcome = .panicked
    ∧ (sampleTcpNoAuth.connect [.readTimeout]).outcome = .panicked
    ∧ ((Socks4.Socks4General.mk sampleDest [] sampleTimeouts).connect [.readIOError 7]).outcome
      = .panicked
    ∧ ((Socks4.Socks4NoIdent.mk sampleDest sampleTimeouts).connect [.writeTimeout]).outcome
      = .err .OperationTimeoutReached
    ∧ ((Socks4.Socks4NoIdent.mk sampleDest sampleTimeouts).connect [.readTimeout]).outcome
      = .err .OperationTimeoutReached
    ∧ ((Socks4.Socks4NoIdent.mk sampleDest sampleTimeouts).connect [.readIOError 7]).outcome
      = .err (.IOError 7) := by
  decide

/-- C3 counterexample: the full 10-byte version-5 success reply
`[5,0,0,1,0,0,0,0,0,0]`, delivered in one read at Phase 3, makes
`connect` return `BadBuffer` — not the wrapped stream the claim
promises — because the code requires the Phase-3 reply to be read as
exactly 2 bytes. -/
theorem c3_counterexample_ten_byte_reply :
    (sampleTcpNoAuth.connect
        [.reply [5, 2], .reply [5, 0, 0, 1, 0, 0, 0, 0, 0, 0]]).outcome
      = .err .BadBuffer
    ∧ (sampleTcpNoAuth.connect
        [.reply [5, 2], .reply [5, 0, 0, 1, 0, 0, 0, 0, 0, 0]]).outcome
      ≠ .ok := by
  decide

/-- C8 counterexample: for destination 1.2.3.4:80 and the 2-byte ident
`ab`, the version-4 request buffer actually written to the transport is
the 9-byte `[4,1,0,80,1,2,3,4,0]` — its length is not `8 + len(ident)`
(which would be 10) and the ident bytes appear nowhere in it. -/
theorem c8_counterexample_ident_omitted :
    ((Socks4.Socks4General.mk sampleDest [97, 98] sampleTimeouts).connect
        [.reply []]).writes = [[4, 1, 0, 80, 1, 2, 3, 4, 0]]
    ∧ ([4, 1, 0, 80, 1, 2, 3, 4, 0] : List Nat).length
        ≠ 8 + ([97, 98] : List Nat).length := by
  decide

/-- C9 counterexample: with the GSSAPI selection configured, `connect`
does not reject the attempt before sending — it writes the 2-byte
greeting `[5, 1]` (version and method count, with the method byte
omitted) to the transport, refuting the claim that no request bytes are
written for such a selection. -/
theorem c9_counterexample_gssapi_writes_greeting :
    ((Socks5.TcpNoAuth.mk (.Ipv4Addr 1 2 3 4) 80 sampleTimeouts
        .GenericSecurityServicesAPI).connect [.reply [5, 0]]).writes = [[5, 1]]
    ∧ ((Socks5.TcpNoAuth.mk (.Ipv4Addr 1 2 3 4) 80 sampleTimeouts
        .GenericSecurityServicesAPI).connect [.reply [5, 0]]).writes ≠ [] := by
  decide

/-- C3 (amended): the Phase-3 reply must be read as exactly 2 bytes — any
other read count yields `BadBuffer` — and on a 2-byte reply, byte 1 is
the status code mapped over the claimed table; consequently the 2-byte
reply `[5,0]` yields the wrapped stream and `[5,3]` yields
`NetworkUnreachable`, while the full 10-byte success reply yields
`BadBuffer` rather than a stream.  (Phase 3 is reached by the
method-negotiation reply `[5,2]` with the default no-auth selection, the
only route the code leaves to it.) -/
theorem c3_phase3_requires_exactly_two_reply_bytes :
    (∀ r : List Nat, r.length ≠ 2 →
        (sampleTcpNoAuth.connect [.reply [5, 2], .reply r]).outcome = .err .BadBuffer)
    ∧ (∀ x s : Nat,
        (sampleTcpNoAuth.connect [.reply [5, 2], .reply [x, s]]).outcome
          = if s = 0 then .ok
            else if s = 1 then .err .SocksServerFailure
            else if s = 2 then .err .RequestDenied
            else if s = 3 then .err .NetworkUnreachable
            else if s = 4 then .err .HostUnreachable
            else if s = 5 then .err .ConnectionRefused
            else if s = 6 then .err .TTLExpired
            else if s = 7 then .err .NotSupported
            else if s = 8 then .err .DestinationNotSupported
            else .err .BadBuffer)
    ∧ (sampleTcpNoAuth.connect [.reply [5, 2], .reply [5, 0]]).outcome = .ok
    ∧ (sampleTcpNoAuth.connect [.reply [5, 2], .reply [5, 3]]).outcome
        = .err .NetworkUnreachable := by
  refine ⟨?_, ?_, by decide, by decide⟩
  · intro r hr
    have key : sampleTcpNoAuth.connect [.reply [5, 2], .reply r]
        = if (r.take 10).length ≠ 2
          then ⟨.err .BadBuffer, [[5, 1, 0], [5, 1, 0, 1, 1, 2, 3, 4, 0, 80]],
                sampleTcpNoAuth⟩
          else ⟨Socks5.replyStatus
                  ((r.take 10
                    ++ ([5, 1, 0, 1, 1, 2, 3, 4, 0, 80] : List Nat).drop
                        (r.take 10).length).getD 1 0),
                [[5, 1, 0], [5, 1, 0, 1, 1, 2, 3, 4, 0, 80]], sampleTcpNoAuth⟩ := rfl
    rw [key, if_pos]
    rw [List.length_take]
    omega
  · intro x s
    rfl

/-- C3 witness: a 3-byte Phase-3 reply is rejected as `BadBuffer`, by the
amended theorem applied at a concrete input. -/
theorem c3_phase3_requires_exactly_two_reply_bytes_witness :
    (sampleTcpNoAuth.connect [.reply [5, 2], .reply [5, 0, 0]]).outcome
      = .err .BadBuffer :=
  c3_phase3_requires_exactly_two_reply_bytes.1 [5, 0, 0] (by decide)

/-- C5: for every domain-name destination, once the handshake falls
through to the Phase-3 encoding (method reply `[5,2]` under the default
no-auth selection), `connect` panics regardless of the name, the port,
the timeouts or any further transport behaviour; and on the slice
`connect` hands it — always two bytes longer than tag, length byte, and
name — `extend_buffer` panics in `clone_from_slice` for names of at most
255 bytes and returns the `Err` that `connect` unwraps for longer
names.  Hence no domain-name destination can produce a successful
connect or a typed error out of Phase 3. -/
theorem c5_domain_destination_phase3_panics :
    ∀ (name : List Nat) (port : Nat) (t : ConnectionTimeouts) (rest : List IOEvent),
      ((Socks5.TcpNoAuth.mk (.DomainName name) port t .NoAuthentication).connect
          (.reply [5, 2] :: rest)).outcome = .panicked
      ∧ (∀ buf : List Nat, buf.length = name.length + 4 →
          (name.length ≤ 255 →
            ((Socks5.Destination.DomainName name).extend_buffer buf).1 = .panicked)
          ∧ (255 < name.length →
            ((Socks5.Destination.DomainName name).extend_buffer buf).1 = .err)) := by
  intro name port t rest
  constructor
  · have key : (Socks5.TcpNoAuth.mk (.DomainName name) port t .NoAuthentication).connect
          (.reply [5, 2] :: rest)
        = Socks5.connectRequestPhase ⟨.DomainName name, port, t, .NoAuthentication⟩
            [1, 2, 0] [[5, 1, 0]] (rest.headD (.reply [])) := rfl
    rw [key]
    unfold Socks5.connectRequestPhase
    simp only [Socks5.Destination.len_as_buffer]
    have hlen : (List.drop 3
        (((resizeList [1, 2, 0] (1 + 1 + 1 + (name.length + 2) + 2)).set 0 5).set 1 1)).length
        = name.length + 4 := by
      simp [List.length_drop, List.length_set, resizeList_length]
      omega
    rw [extend_domain_fst name _ hlen]
    by_cases h255 : 255 < name.length
    · rw [if_pos h255]
    · rw [if_neg h255]
  · intro buf hbuf
    constructor
    · intro hshort
      rw [extend_domain_fst name buf hbuf, if_neg (by omega)]
    · intro hlong
      rw [extend_domain_fst name buf hbuf, if_pos hlong]

/-- C5 witness: the theorem applied at the one-byte domain name `a` with
port 80 and a 5-byte slice. -/
theorem c5_domain_destination_phase3_panics_witness :
    ((Socks5.TcpNoAuth.mk (.DomainName [97]) 80 sampleTimeouts .NoAuthentication).connect
        [.reply [5, 2]]).outcome = .panicked
    ∧ ((Socks5.Destination.DomainName [97]).extend_buffer [0, 0, 0, 0, 0]).1
        = .panicked :=
  ⟨(c5_domain_destination_phase3_panics [97] 80 sampleTimeouts []).1,
   ((c5_domain_destination_phase3_panics [97] 80 sampleTimeouts []).2 [0, 0, 0, 0, 0]
      (by decide)).1 (by decide)⟩

/-- C7: for both version-4 variants, a reply read of any byte count other
than exactly 8 yields `BadBuffer`, and on an 8-byte reply byte index 1
selects the outcome — 0x5A success, 0x5B `RequestDenied`, 0x5C
`IdentIsUnavailable`, 0x5D `BadIdent`, anything else `BadBuffer`, never
success. -/
theorem c7_socks4_reply_validation :
    (∀ (g : Socks4.Socks4General) (r : List Nat) (rest : List IOEvent), r.length ≠ 8 →
        (g.connect (.reply r :: rest)).outcome = .err .BadBuffer)
    ∧ (∀ (g : Socks4.Socks4NoIdent) (r : List Nat) (rest : List IOEvent), r.length ≠ 8 →
        (g.connect (.reply r :: rest)).outcome = .err .BadBuffer)
    ∧ (∀ (g : Socks4.Socks4General) (b0 s b2 b3 b4 b5 b6 b7 : Nat) (rest : List IOEvent),
        (g.connect (.reply [b0, s, b2, b3, b4, b5, b6, b7] :: rest)).outcome
          = if s = 0x5a then .ok
            else if s = 0x5b then .err .RequestDenied
            else if s = 0x5c then .err .IdentIsUnavailable
            else if s = 0x5d then .err .BadIdent
            else .err .BadBuffer)
    ∧ (∀ (g : Socks4.Socks4NoIdent) (b0 s b2 b3 b4 b5 b6 b7 : Nat) (rest : List IOEvent),
        (g.connect (.reply [b0, s, b2, b3, b4, b5, b6, b7] :: rest)).outcome
          = if s = 0x5a then .ok
            else if s = 0x5b then .err .RequestDenied
            else if s = 0x5c then .err .IdentIsUnavailable
            else if s = 0x5d then .err .BadIdent
            else .err .BadBuffer) := by
  refine ⟨?_, ?_, fun g b0 s b2 b3 b4 b5 b6 b7 rest => rfl,
          fun g b0 s b2 b3 b4 b5 b6 b7 rest => rfl⟩
  · intro g r rest hr
    have key : g.connect (.reply r :: rest)
        = if (r.take (Socks4.requestBytes g.dest_addr).length).length ≠ 8
          then ⟨.err .BadBuffer, [Socks4.requestBytes g.dest_addr], g⟩
          else ⟨Socks4.replyStatus
                  ((r.take (Socks4.requestBytes g.dest_addr).length
                    ++ (Socks4.requestBytes g.dest_addr).drop
                        (r.take (Socks4.requestBytes g.dest_addr).length).length).getD 1 0),
                [Socks4.requestBytes g.dest_addr], g⟩ := rfl
    rw [key, if_pos]
    rw [List.length_take, requestBytes_length]
    omega
  · intro g r rest hr
    have key : g.connect (.reply r :: rest)
        = if (r.take (Socks4.requestBytes g.dest_addr).length).length ≠ 8
          then ⟨.err .BadBuffer, [Socks4.requestBytes g.dest_addr], g⟩
          else ⟨Socks4.replyStatus
                  ((r.take (Socks4.requestBytes g.dest_addr).length
                    ++ (Socks4.requestBytes g.dest_addr).drop
                        (r.take (Socks4.requestBytes g.dest_addr).length).length).getD 1 0),
                [Socks4.requestBytes g.dest_addr], g⟩ := rfl
    rw [key, if_pos]
    rw [List.length_take, requestBytes_length]
    omega

/-- C7 witness: the theorem applied at concrete inputs — a 2-byte reply
and an empty reply are rejected as `BadBuffer` by the two variants. -/
theorem c7_socks4_reply_validation_witness :
    ((Socks4.Socks4General.mk sampleDest [] sampleTimeouts).connect
        [.reply [0, 90]]).outcome = .err .BadBuffer
    ∧ ((Socks4.Socks4NoIdent.mk sampleDest sampleTimeouts).connect
        [.reply []]).outcome = .err .BadBuffer :=
  ⟨c7_socks4_reply_validation.1 _ [0, 90] [] (by decide),
   c7_socks4_reply_validation.2.1 _ [] [] (by decide)⟩

/-- C8 (amended): both version-4 encoders produce a buffer of length
exactly 9 regardless of the ident — byte 0 is 4, byte 1 is 1, bytes 2–3
are the port big-endian, bytes 4–7 are the IPv4 octets, and the final
byte is 0x00 — and the ident bytes are never written: the request bytes
sent by `Socks4General::connect` are identical for any two idents (the
ident only contributes to the buffer's reserved capacity). -/
theorem c8_socks4_request_layout :
    ∀ (d : Socks4.SocketAddrV4) (ident ident2 : List Nat) (t : ConnectionTimeouts)
      (events : List IOEvent),
      (Socks4.requestBytes d).length = 9
      ∧ (d.ip0 < 256 → d.ip1 < 256 → d.ip2 < 256 → d.ip3 < 256 → d.port < 65536 →
          Socks4.requestBytes d
            = [4, 1, d.port / 256, d.port % 256, d.ip0, d.ip1, d.ip2, d.ip3, 0])
      ∧ ((Socks4.Socks4General.mk d ident t).connect events).writes
          = ((Socks4.Socks4General.mk d ident2 t).connect events).writes := by
  intro d ident ident2 t events
  refine ⟨requestBytes_length d, ?_, ?_⟩
  · intro h0 h1 h2 h3 hp
    simp only [Socks4.requestBytes, u16be, u32be, ipv4val, List.cons_append,
      List.nil_append, List.cons.injEq, and_true, true_and]
    omega
  · cases events with
    | nil => rfl
    | cons ev rest =>
        cases ev with
        | reply bytes =>
            simp only [Socks4.Socks4General.connect, Socks4.sendPayload, List.headD_cons]
            split <;> rfl
        | writeTimeout => rfl
        | writeIOError e => rfl
        | readTimeout => rfl
        | readIOError e => rfl

/-- C8 witness: the amended theorem applied at destination 1.2.3.4:80,
whose request encodes to the 9-byte `[4,1,0,80,1,2,3,4,0]`. -/
theorem c8_socks4_request_layout_witness :
    Socks4.requestBytes sampleDest = [4, 1, 0, 80, 1, 2, 3, 4, 0] :=
  (c8_socks4_request_layout sampleDest [] [] sampleTimeouts []).2.1
    (by decide) (by decide) (by decide) (by decide) (by decide)

theorem connectRequestPhase_writes_headD (self : Socks5.TcpNoAuth) (buf2 : List Nat)
    (w : List Nat) (ws : List (List Nat)) (ev : IOEvent) :
    ((Socks5.connectRequestPhase self buf2 (w :: ws) ev).writes).headD [] = w := by
  simp only [Socks5.connectRequestPhase]
  repeat' split
  all_goals simp

/-- C9 (amended): for a selection that is neither no-authentication nor
username/password (GSSAPI, private methods, or no-acceptable), `connect`
does not reject before sending: it prints a diagnostic, omits the method
byte, and the first buffer it writes to the transport is the 2-byte
greeting `[5, 1]`, after which it proceeds with normal reply handling. -/
theorem c9_unsupported_selection_writes_greeting :
    ∀ (d : Socks5.Destination) (p : Nat) (t : ConnectionTimeouts)
      (auth : Socks5.AuthenticationKind) (r : List Nat) (rest : List IOEvent),
      (auth = .GenericSecurityServicesAPI ∨ auth = .PrivateMethods ∨
        auth = .NoAcceptable) →
      ((Socks5.TcpNoAuth.mk d p t auth).connect (.reply r :: rest)).writes.headD []
        = [5, 1] := by
  intro d p t auth r rest h
  rcases h with h | h | h <;> subst h <;>
  · simp only [Socks5.TcpNoAuth.connect, Socks5.sendPayload, List.headD_cons,
      IOEvent.writeHappened, if_true]
    repeat' split
    any_goals apply connectRequestPhase_writes_headD
    all_goals rfl

/-- C9 witness: the amended theorem applied at the no-acceptable selection
with destination 1.2.3.4:80 and an empty reply. -/
theorem c9_unsupported_selection_writes_greeting_witness :
    ((Socks5.TcpNoAuth.mk (.Ipv4Addr 1 2 3 4) 80 sampleTimeouts
        .NoAcceptable).connect [.reply []]).writes.headD [] = [5, 1] :=
  c9_unsupported_selection_writes_greeting (.Ipv4Addr 1 2 3 4) 80 sampleTimeouts
    .NoAcceptable [] [] (Or.inr (Or.inr rfl))

theorem connectRequestPhase_final (self : Socks5.TcpNoAuth) (buf2 : List Nat)
    (w1 : List (List Nat)) (ev : IOEvent) :
    (Socks5.connectRequestPhase self buf2 w1 ev).final = self := by
  simp only [Socks5.connectRequestPhase]
  repeat' split
  all_goals simp [extend_buffer_snd]

theorem authPhase_final (self : Socks5.TcpNoAuth) (u p buf2 : List Nat)
    (w1 : List (List Nat)) (ev : IOEvent) :
    (Socks5.authPhase self u p buf2 w1 ev).final = self := by
  simp only [Socks5.authPhase]
  repeat' split
  all_goals rfl

theorem tcpNoAuth_connect_final (s : Socks5.TcpNoAuth) (events : List IOEvent) :
    (s.connect events).final = s := by
  simp only [Socks5.TcpNoAuth.connect]
  repeat' split
  all_goals first
    | rfl
    | apply connectRequestPhase_final
    | apply authPhase_final

theorem socks4General_connect_final (g : Socks4.Socks4General)
    (events : List IOEvent) : (g.connect events).final = g := by
  simp only [Socks4.Socks4General.connect]
  repeat' split
  all_goals rfl

theorem socks4NoIdent_connect_final (g : Socks4.Socks4NoIdent)
    (events : List IOEvent) : (g.connect events).final = g := by
  simp only [Socks4.Socks4NoIdent.connect]
  repeat' split
  all_goals rfl

/-- C10: `connect` is parameter-preserving for all three constructor
objects — the destination, port, ident, timeouts and authentication
selection held by the constructor are the same after the call as before,
whatever the transport did (success, typed error, or panic) — and hence a
second attempt through the same constructor against a fresh transport
writes exactly the bytes a first attempt would. -/
theorem c10_connect_preserves_parameters :
    (∀ (g : Socks4.Socks4General) (events : List IOEvent),
        (g.connect events).final = g)
    ∧ (∀ (g : Socks4.Socks4NoIdent) (events : List IOEvent),
        (g.connect events).final = g)
    ∧ (∀ (s : Socks5.TcpNoAuth) (events : List IOEvent),
        (s.connect events).final = s)
    ∧ (∀ (s : Socks5.TcpNoAuth) (ev1 ev2 : List IOEvent),
        (((s.connect ev1).final).connect ev2).writes = (s.connect ev2).writes) :=
  ⟨socks4General_connect_final, socks4NoIdent_connect_final, tcpNoAuth_connect_final,
   fun s ev1 ev2 => by rw [tcpNoAuth_connect_final]⟩

end AsyncProxy
